import Mathlib

/-
Verification of the Simple-Checklist engine: a shallow embedding of the
data model (src/src/models/task.py, category.py, checklist.py), the
undo/redo history (src/src/features/undo_manager.py), the task sorter
(src/src/features/task_sorting.py), the settings recent-files list
(src/src/persistence/settings.py), and the file-load validation path
(simple-checklist.py, load_checklist_file), together with theorems about
the properties the specification states for them.

Modelling conventions:
- Python `Optional[str]` becomes `Option String`; a JSON key that may be
  absent becomes an `Option` field of a "dict" structure (a key present
  with value `null` is identified with an absent key, which is faithful
  to every `data.get(k)` access in the source).
- Python truthiness on strings/lists (`x or d`) is modelled explicitly:
  `None` and `""` (resp. `[]`) are falsy.
- `datetime.now().isoformat()` is modelled by an explicit `now : String`
  parameter threaded to the constructors that may call it.
-/

namespace SC

/-- Python falsiness for `Optional[str]`: `x or d` yields `d` when `x` is
`None` or the empty string. Models `created or datetime.now().isoformat()`
in `Task.__init__`. -/
def pyStrOr (v : Option String) (d : String) : String :=
  match v with
  | none => d
  | some s => if s = "" then d else s

/-- Python `x or []` for an optional list: `None` and `[]` are falsy, both
yield `[]`; a non-empty list is returned unchanged. -/
def pyListOr {α : Type} (v : Option (List α)) : List α :=
  match v with
  | none => []
  | some l => l

/-- `Subtask` from src/src/models/task.py: `{text, completed}`. -/
structure Subtask where
  text : String
  completed : Bool
deriving DecidableEq, Repr

/-- Serialized form of a subtask: `text` is always written by `to_dict`
and read with `data['text']` (required); `completed` is optional on read. -/
structure SubtaskDict where
  text : String
  completed : Option Bool
deriving DecidableEq, Repr

/-- `Subtask.to_dict`: `{'text': self.text, 'completed': self.completed}`. -/
def Subtask.to_dict (s : Subtask) : SubtaskDict :=
  { text := s.text, completed := some s.completed }

/-- `Subtask.from_dict`: `cls(text=data['text'], completed=data.get('completed', False))`. -/
def Subtask.from_dict (d : SubtaskDict) : Subtask :=
  { text := d.text, completed := d.completed.getD false }

/-- `Task` from src/src/models/task.py. `created` is always a string after
construction (`created or datetime.now().isoformat()`). -/
structure Task where
  text : String
  completed : Bool
  notes : List String
  subtasks : List Subtask
  created : String
  priority : String
  due_date : Option String
  reminder : Option String
deriving DecidableEq, Repr

/-- `Task.__init__`, with `now` standing for `datetime.now().isoformat()`.
`notes or []`, `subtasks or []`, `created or now` are Python truthiness. -/
def Task.init (now : String) (text : String) (completed : Bool)
    (notes : Option (List String)) (subtasks : Option (List Subtask))
    (created : Option String) (priority : String)
    (due_date : Option String) (reminder : Option String) : Task :=
  { text := text
    completed := completed
    notes := pyListOr notes
    subtasks := pyListOr subtasks
    created := pyStrOr created now
    priority := priority
    due_date := due_date
    reminder := reminder }

/-- Serialized form of a task; every key `to_dict` may write / `from_dict`
may read, `Option` marking possible absence. -/
structure TaskDict where
  text : Option String
  completed : Option Bool
  created : Option String
  notes : Option (List String)
  subtasks : Option (List SubtaskDict)
  priority : Option String
  due_date : Option String
  reminder : Option String
deriving DecidableEq, Repr

/-- The task dictionary with every key absent. -/
def TaskDict.empty : TaskDict :=
  { text := none, completed := none, created := none, notes := none,
    subtasks := none, priority := none, due_date := none, reminder := none }

/-- `Task.to_dict`: always writes `text`, `completed`, `created`; writes
`notes`/`subtasks` only when non-empty, `priority` only when it differs
from `'medium'`, `due_date`/`reminder` only when truthy (not `None` and
not `""`). -/
def Task.to_dict (t : Task) : TaskDict :=
  { text := some t.text
    completed := some t.completed
    created := some t.created
    notes := if t.notes = [] then none else some t.notes
    subtasks := if t.subtasks = [] then none
                else some (t.subtasks.map Subtask.to_dict)
    priority := if t.priority = "medium" then none else some t.priority
    due_date := match t.due_date with
      | none => none
      | some s => if s = "" then none else some s
    reminder := match t.reminder with
      | none => none
      | some s => if s = "" then none else some s }

/-- `Task.from_dict`: `text` defaults to `''`, `completed` to `False`,
`notes` to `[]`, `subtasks` to `[]`, `priority` to `'medium'` (the stored
value is passed through verbatim when present), `created`, `due_date`,
`reminder` to `None`; the result goes through `Task.__init__`. -/
def Task.from_dict (now : String) (d : TaskDict) : Task :=
  Task.init now (d.text.getD "") (d.completed.getD false)
    (some (d.notes.getD []))
    (some ((d.subtasks.getD []).map Subtask.from_dict))
    d.created
    (d.priority.getD "medium")
    d.due_date
    d.reminder

/-- `Category` from src/src/models/category.py. -/
structure Category where
  id : Int
  name : String
  tasks : List Task
deriving DecidableEq, Repr

instance : Inhabited Category := ⟨⟨0, "", []⟩⟩

/-- Serialized form of a category: `id` and `name` are required on read
(`data['id']`, `data['name']`), `tasks` optional. -/
structure CategoryDict where
  id : Int
  name : String
  tasks : Option (List TaskDict)
deriving DecidableEq, Repr

/-- `Category.to_dict`: `{'id': .., 'name': .., 'tasks': [..]}` with
`tasks` always present. -/
def Category.to_dict (c : Category) : CategoryDict :=
  { id := c.id, name := c.name, tasks := some (c.tasks.map Task.to_dict) }

/-- `Category.from_dict`: `tasks` defaults to `[]` when absent. -/
def Category.from_dict (now : String) (d : CategoryDict) : Category :=
  { id := d.id, name := d.name,
    tasks := (d.tasks.getD []).map (Task.from_dict now) }

/-- `Checklist` from src/src/models/checklist.py. -/
structure Checklist where
  categories : List Category
  current_category_id : Option Int
deriving DecidableEq, Repr

/-- Serialized form of a checklist; `current_category` written even when
null, so absent and null coincide. -/
structure ChecklistDict where
  categories : Option (List CategoryDict)
  current_category : Option Int
deriving DecidableEq, Repr

/-- `Checklist.to_dict`. -/
def Checklist.to_dict (c : Checklist) : ChecklistDict :=
  { categories := some (c.categories.map Category.to_dict)
    current_category := c.current_category_id }

/-- `Checklist.from_dict`: `categories` defaults to `[]` when absent. -/
def Checklist.from_dict (now : String) (d : ChecklistDict) : Checklist :=
  { categories := (d.categories.getD []).map (Category.from_dict now)
    current_category_id := d.current_category }

/-- `Checklist.add_category`: appends. -/
def Checklist.add_category (c : Checklist) (cat : Category) : Checklist :=
  { c with categories := c.categories ++ [cat] }

/-- Helper for `Checklist.remove_category`: remove the first category with
the given id, returning it (or `none`) together with the remaining list. -/
def removeFirstById (category_id : Int) : List Category → Option Category × List Category
  | [] => (none, [])
  | cat :: rest =>
    if cat.id = category_id then (some cat, rest)
    else
      let r := removeFirstById category_id rest
      (r.1, cat :: r.2)

/-- `Checklist.remove_category`: removes the first category whose id
matches, returning the removed category or `none`. -/
def Checklist.remove_category (c : Checklist) (category_id : Int) :
    Option Category × Checklist :=
  let r := removeFirstById category_id c.categories
  (r.1, { c with categories := r.2 })

/-- `Checklist.get_next_category_id`: `1` when the category list is empty,
else `max(cat.id for cat in self.categories) + 1`. -/
def Checklist.get_next_category_id (c : Checklist) : Int :=
  match c.categories.map Category.id with
  | [] => 1
  | x :: xs => xs.foldl max x + 1

/-- Python `list.insert(n, x)`: insert at position `n`, appending when `n`
is at or beyond the end. -/
def listInsertAt {α : Type} (n : Nat) (x : α) (l : List α) : List α :=
  l.take n ++ x :: l.drop n

/-- `Checklist.reorder_categories`: `pop(from_index)` then
`insert(to_index, category)` guarded by
`0 <= from_index < len and 0 <= to_index < len and from_index != to_index`;
returns whether anything happened, paired with the resulting checklist.
Indices are `Int` to model Python ints (negative is out of range for the
guard). -/
def Checklist.reorder_categories (c : Checklist) (from_index to_index : Int) :
    Bool × Checklist :=
  let n : Int := c.categories.length
  if 0 ≤ from_index ∧ from_index < n ∧ 0 ≤ to_index ∧ to_index < n ∧
      from_index ≠ to_index then
    let cat := c.categories.getD from_index.toNat default
    let rest := c.categories.eraseIdx from_index.toNat
    (true, { c with categories := listInsertAt to_index.toNat cat rest })
  else
    (false, c)

/-- One session-level operation on the checklist, as driven by the app:
adding a category (which assigns `get_next_category_id` as its id) or
removing one by id. -/
inductive SessionOp where
  | add (name : String)
  | remove (category_id : Int)

/-- Run one session operation; an `add` also reports the id it assigned. -/
def runOp (c : Checklist) : SessionOp → Checklist × Option Int
  | .add name =>
    let i := c.get_next_category_id
    (c.add_category ⟨i, name, []⟩, some i)
  | .remove category_id => ((c.remove_category category_id).2, none)

/-- Run a session of operations, collecting the ids assigned by the adds
in order. -/
def runSession : Checklist → List SessionOp → Checklist × List Int
  | c, [] => (c, [])
  | c, op :: ops =>
    let r := runOp c op
    let rest := runSession r.1 ops
    (rest.1, r.2.toList ++ rest.2)

/-- `UndoManager` from src/src/features/undo_manager.py. The stacks are
modelled most-recent-first: Python `append` is cons, `pop()` removes the
head, `pop(0)` removes the last element. `deepcopy` is the identity on
immutable values. -/
structure UndoManager (α : Type) where
  undo_stack : List (α × String)
  redo_stack : List (α × String)
  max_history : Nat

/-- `UndoManager.__init__` (the source default for `max_history` is 20). -/
def UndoManager.init (α : Type) (max_history : Nat) : UndoManager α :=
  { undo_stack := [], redo_stack := [], max_history := max_history }

/-- `record_state`: push the snapshot, clear the redo stack, and drop the
oldest undo entry when the cap is exceeded. -/
def UndoManager.record_state {α : Type} (m : UndoManager α) (state : α)
    (action_description : String) : UndoManager α :=
  let u := (state, action_description) :: m.undo_stack
  { undo_stack := if u.length > m.max_history then u.dropLast else u
    redo_stack := []
    max_history := m.max_history }

/-- `undo(current_state)`: `none` when the undo stack is empty; otherwise
push `current_state` on the redo stack and pop-and-return the top of the
undo stack. -/
def UndoManager.undo {α : Type} (m : UndoManager α) (current_state : α) :
    Option α × UndoManager α :=
  match m.undo_stack with
  | [] => (none, m)
  | prev :: rest =>
    (some prev.1,
      { m with undo_stack := rest
               redo_stack := (current_state, "Redo") :: m.redo_stack })

/-- `redo(current_state)`: mirror of `undo`. -/
def UndoManager.redo {α : Type} (m : UndoManager α) (current_state : α) :
    Option α × UndoManager α :=
  match m.redo_stack with
  | [] => (none, m)
  | nxt :: rest =>
    (some nxt.1,
      { m with redo_stack := rest
               undo_stack := (current_state, "Undo") :: m.undo_stack })

/-- `can_undo`. -/
def UndoManager.can_undo {α : Type} (m : UndoManager α) : Bool :=
  m.undo_stack.length > 0

/-- `can_redo`. -/
def UndoManager.can_redo {α : Type} (m : UndoManager α) : Bool :=
  m.redo_stack.length > 0

/-- JSON values, for the load-validation path of `load_checklist_file` in
simple-checklist.py (which works on raw parsed JSON, not model classes). -/
inductive Json where
  | null
  | bool (b : Bool)
  | num (n : Int)
  | str (s : String)
  | arr (elems : List Json)
  | obj (fields : List (String × Json))

/-- Python dict lookup on a JSON object (first binding wins). -/
def jsonLookup (k : String) : List (String × Json) → Option Json
  | [] => none
  | kv :: rest => if kv.1 = k then some kv.2 else jsonLookup k rest

/-- Python dict assignment on a JSON object: update in place when the key
exists, append otherwise. -/
def jsonSet (k : String) (v : Json) : List (String × Json) → List (String × Json)
  | [] => [(k, v)]
  | kv :: rest => if kv.1 = k then (kv.1, v) :: rest else kv :: jsonSet k v rest

/-- The validation and `current_category` fix-up of `load_checklist_file`:
the root must be a dict, must contain `categories`, which must be a list;
when `current_category` is absent or null it becomes the first category's
`id` (defaulting to 1; a non-object first category is modelled by the
default) or null when there are no categories. Errors carry the exact
`ValueError` messages of the source. -/
def validate_loaded_data (j : Json) : Except String Json :=
  match j with
  | .obj fields =>
    match jsonLookup "categories" fields with
    | none => .error "Invalid checklist format: missing \x27categories\x27 field"
    | some (.arr cats) =>
      let fixed :=
        match jsonLookup "current_category" fields with
        | none =>
          match cats with
          | [] => jsonSet "current_category" Json.null fields
          | c0 :: _ =>
            match c0 with
            | .obj cfields =>
              jsonSet "current_category" ((jsonLookup "id" cfields).getD (Json.num 1)) fields
            | _ => jsonSet "current_category" (Json.num 1) fields
        | some .null =>
          match cats with
          | [] => jsonSet "current_category" Json.null fields
          | c0 :: _ =>
            match c0 with
            | .obj cfields =>
              jsonSet "current_category" ((jsonLookup "id" cfields).getD (Json.num 1)) fields
            | _ => jsonSet "current_category" (Json.num 1) fields
        | some _ => fields
      .ok (.obj fixed)
    | some _ => .error "Invalid checklist format: \x27categories\x27 must be a list"
  | _ => .error "Invalid checklist format: root must be an object"

/-- The in-memory state `load_checklist_file` touches: the raw checklist
data and the current file path. -/
structure AppState where
  data : Json
  data_file : String

/-- `load_checklist_file(filename)`: `content` is the result of reading and
JSON-parsing the file (`.error` for `json.JSONDecodeError` / `IOError` /
`OSError`). On any failure the previous state is restored and the error
dialog message is returned; on success the state holds the fixed-up data
and the new file path. -/
def load_checklist_file (st : AppState) (filename : String)
    (content : Except String Json) : AppState × Option String :=
  let failMsg := fun (e : String) =>
    "Failed to load checklist:\n" ++ e ++ "\n\nPrevious checklist has been restored."
  match content with
  | .error e => (st, some (failMsg e))
  | .ok j =>
    match validate_loaded_data j with
    | .error e => (st, some (failMsg e))
    | .ok fixed => ({ data := fixed, data_file := filename }, none)

/-- `TaskSorter.PRIORITY_ORDER.get(p, 1)`: high 0, medium 1, low 2, any
other string 1. -/
def priorityRank (p : String) : Nat :=
  if p = "high" then 0 else if p = "medium" then 1 else if p = "low" then 2 else 1

/-- The due-date component of the smart key:
`task.get('due_date', '9999-12-31') or '9999-12-31'` (absent, null and the
empty string all sort last). -/
def smartDue (t : TaskDict) : String :=
  match t.due_date with
  | none => "9999-12-31"
  | some s => if s = "" then "9999-12-31" else s

/-- `smart_key(task)`: the composite `(completed, priority rank, due date)`
tuple, in the lexicographic order type mirroring Python tuple comparison. -/
def smart_key (t : TaskDict) : Nat ×ₗ Nat ×ₗ String :=
  toLex ((if t.completed.getD false then 1 else 0),
    toLex (priorityRank (t.priority.getD "medium"), smartDue t))

/-- Python tuple comparison on smart keys: lexicographic order. -/
def smartR (a b : TaskDict) : Prop :=
  smart_key a ≤ smart_key b

instance : DecidableRel smartR := fun a b => by
  unfold smartR
  infer_instance

instance : IsTotal TaskDict smartR :=
  ⟨fun a b => le_total (smart_key a) (smart_key b)⟩

instance : IsTrans TaskDict smartR :=
  ⟨fun _ _ _ h1 h2 => le_trans h1 h2⟩

/-- `TaskSorter.sort_smart`: Python's stable `list.sort` with `smart_key`,
modelled by insertion sort under the same total preorder (stable sorts by
the same key agree). -/
def TaskSorter.sort_smart (tasks : List TaskDict) : List TaskDict :=
  List.insertionSort smartR tasks

/-- The three tasks of the smart-sort scenario: completed and
high-priority. -/
def exCompletedHigh : TaskDict :=
  { TaskDict.empty with
    text := some "t1"
    completed := some true
    priority := some "high" }

/-- Scenario task: incomplete, low-priority, no due date. -/
def exLowNoDue : TaskDict :=
  { TaskDict.empty with
    text := some "t2"
    completed := some false
    priority := some "low" }

/-- Scenario task: incomplete, high-priority, due 2025-01-01. -/
def exHighDue : TaskDict :=
  { TaskDict.empty with
    text := some "t3"
    completed := some false
    priority := some "high"
    due_date := some "2025-01-01" }

/-- `SettingsManager.add_recent_file` (and `add_to_recent_files` in
simple-checklist.py, the same algorithm): remove the first occurrence of
the path if present, insert it at the front, keep the first
`MAX_RECENT_FILES = 10` entries. -/
def add_recent_file (recent_files : List String) (file_path : String) : List String :=
  (file_path :: recent_files.erase file_path).take 10

/-- The twelve distinct paths of the recent-files scenario. -/
def twelvePaths : List String :=
  ["f01", "f02", "f03", "f04", "f05", "f06", "f07", "f08", "f09", "f10", "f11", "f12"]

/-- Modelled from the spec: the repository under src/ contains no reminder
scheduler (only UI hooks that set `reminder`); the scan is taken from
spec section 4.5. The notification title derived from the category name. -/
def reminderTitle (catName : String) : String :=
  "Reminder: " ++ catName

/-- Modelled from the spec: one reminder-scan step on one task (spec
section 4.5, steps 2-4). `parseTs` is the timestamp parser (`none` for an
unparsable string), `now` the scan time, `notifyOk` whether the external
notification capability succeeds or raises (the spec requires the outcome
not to depend on it), `catName` the owning category's name. Returns the
task as it is after the scan and the list of notification calls
`(title, message)` made for it, the message being the task text truncated
to 100 characters. -/
def scan_task (parseTs : String → Option Int) (now : Int) (_notifyOk : Bool)
    (catName : String) (t : Task) : Task × List (String × String) :=
  match t.reminder with
  | none => (t, [])
  | some r =>
    match parseTs r with
    | none => ({ t with reminder := none }, [])
    | some ts =>
      if ts ≤ now then
        ({ t with reminder := none }, [(reminderTitle catName, t.text.take 100)])
      else
        (t, [])

/-- Modelled from the spec: a scan visits every task of a category. -/
def scan_category (parseTs : String → Option Int) (now : Int) (notifyOk : Bool)
    (c : Category) : Category × List (String × String) :=
  let results := c.tasks.map (scan_task parseTs now notifyOk c.name)
  ({ c with tasks := results.map Prod.fst },
   (results.map Prod.snd).foldr (· ++ ·) [])

/-- Modelled from the spec: a scan visits every task in every category. -/
def scan_checklist (parseTs : String → Option Int) (now : Int) (notifyOk : Bool)
    (c : Checklist) : Checklist × List (String × String) :=
  let results := c.categories.map (scan_category parseTs now notifyOk)
  ({ c with categories := results.map Prod.fst },
   (results.map Prod.snd).foldr (· ++ ·) [])

/-- A task round-trips exactly iff none of its Python-falsy-sensitive
string fields is the empty string: `created` is fed through
`created or now`, and empty `due_date`/`reminder` are dropped by
`to_dict`. -/
def goodTask (t : Task) : Prop :=
  t.created ≠ "" ∧ t.due_date ≠ some "" ∧ t.reminder ≠ some ""

instance : DecidablePred goodTask := fun t => by
  unfold goodTask
  infer_instance

/-- A checklist whose every task satisfies `goodTask`. -/
def goodChecklist (c : Checklist) : Prop :=
  ∀ cat ∈ c.categories, ∀ t ∈ cat.tasks, goodTask t

instance : DecidablePred goodChecklist := fun c => by
  unfold goodChecklist
  infer_instance

/-- A concrete well-formed checklist exercising every optional field, used
to witness the round-trip theorem. -/
def exChecklist : Checklist :=
  { categories :=
      [ { id := 1
          name := "Work"
          tasks :=
            [ { text := "write report"
                completed := false
                notes := ["first note"]
                subtasks := [{ text := "outline", completed := true }]
                created := "2024-01-01T00:00:00"
                priority := "high"
                due_date := some "2025-01-01"
                reminder := some "2025-01-01T09:00:00" },
              { text := "done already"
                completed := true
                notes := []
                subtasks := []
                created := "2024-01-02T00:00:00"
                priority := "medium"
                due_date := none
                reminder := none } ] },
        { id := 2, name := "Home", tasks := [] } ]
    current_category_id := some 1 }

/-- A checklist whose single task carries Python-falsy empty strings in
`created`, `due_date` and `reminder`: the round-trip replaces `created`
with a fresh timestamp and normalizes the other two to `None`. -/
def emptyStringChecklist : Checklist :=
  { categories :=
      [ { id := 1
          name := "Work"
          tasks :=
            [ { text := "task"
                completed := false
                notes := []
                subtasks := []
                created := ""
                priority := "medium"
                due_date := some ""
                reminder := some "" } ] } ]
    current_category_id := some 1 }

/-- The task dictionary `{'priority': 'urgent'}`: an unrecognized priority
string. -/
def urgentDict : TaskDict :=
  { TaskDict.empty with priority := some "urgent" }

/-- A concrete timestamp parser for scan witnesses: only `"T100"` parses,
to time 100. -/
def exParse : String → Option Int :=
  fun s => if s = "T100" then some 100 else none

/-- A task carrying a parsable, due reminder. -/
def exRemTask : Task :=
  { text := "call the dentist"
    completed := false
    notes := []
    subtasks := []
    created := "2024-01-01T00:00:00"
    priority := "medium"
    due_date := none
    reminder := some "T100" }

/-- A task carrying an unparsable reminder string. -/
def exBadRemTask : Task :=
  { exRemTask with reminder := some "garbage" }

/-
Theorems.
-/

/-- A subtask always round-trips: `to_dict` writes both fields and
`from_dict` reads them back. -/
theorem subtask_roundtrip (s : Subtask) : Subtask.from_dict s.to_dict = s := rfl

/-- Lists of subtasks round-trip element-wise. -/
theorem subtask_map_roundtrip (l : List Subtask) :
    l.map (Subtask.from_dict ∘ Subtask.to_dict) = l := by
  induction l with
  | nil => rfl
  | cons s rest ih => simp [Function.comp, subtask_roundtrip, ih]

/-- A task with no Python-falsy empty-string fields round-trips through
`to_dict`/`from_dict`, for any `now`. -/
theorem task_roundtrip (now : String) (t : Task) (h : goodTask t) :
    Task.from_dict now t.to_dict = t := by
  obtain ⟨h1, h2, h3⟩ := h
  obtain ⟨text, completed, notes, subtasks, created, priority, due, rem⟩ := t
  simp only [goodTask] at h1 h2 h3
  simp only [Task.to_dict, Task.from_dict, Task.init, Task.mk.injEq]
  refine ⟨rfl, rfl, ?_, ?_, ?_, ?_, ?_, ?_⟩
  · by_cases hn : notes = [] <;> simp [pyListOr, hn]
  · by_cases hs : subtasks = [] <;> simp [pyListOr, hs, subtask_map_roundtrip]
  · simp [pyStrOr, h1]
  · by_cases hp : priority = "medium" <;> simp [hp]
  · cases due with
    | none => rfl
    | some s =>
      have hs : s ≠ "" := fun hc => h2 (by rw [hc])
      simp [hs]
  · cases rem with
    | none => rfl
    | some s =>
      have hs : s ≠ "" := fun hc => h3 (by rw [hc])
      simp [hs]

/-- A category whose tasks are all good round-trips. -/
theorem category_roundtrip (now : String) (c : Category)
    (h : ∀ t ∈ c.tasks, goodTask t) :
    Category.from_dict now c.to_dict = c := by
  obtain ⟨i, name, tasks⟩ := c
  simp only [Category.to_dict, Category.from_dict, Category.mk.injEq,
    Option.getD_some]
  refine ⟨trivial, trivial, ?_⟩
  induction tasks with
  | nil => rfl
  | cons t rest ih =>
    simp only [List.map_cons, List.cons.injEq]
    constructor
    · exact task_roundtrip now t (h t (by simp))
    · exact ih fun u hu => h u (by simp [hu])

/-- C1 (amended): for every checklist in which no task has an empty-string
`created`, `due_date` or `reminder` (Python-falsy values), serialization
round-trips exactly: `from_dict(to_dict(C)) = C`, for any `now`; absent
and default-valued optional fields normalize to the same constructed
result. -/
theorem c1_serialization_roundtrip (now : String) (c : Checklist)
    (h : goodChecklist c) :
    Checklist.from_dict now c.to_dict = c := by
  obtain ⟨cats, cur⟩ := c
  simp only [goodChecklist] at h
  simp only [Checklist.to_dict, Checklist.from_dict, Checklist.mk.injEq,
    Option.getD_some]
  refine ⟨?_, trivial⟩
  induction cats with
  | nil => rfl
  | cons cat rest ih =>
    simp only [List.map_cons, List.cons.injEq]
    constructor
    · exact category_roundtrip now cat fun t ht => h cat (by simp) t ht
    · exact ih fun c2 hc2 t ht => h c2 (by simp [hc2]) t ht

/-- Witness for C1: a concrete two-category checklist exercising notes,
subtasks, non-default priority, due date and reminder round-trips. -/
theorem c1_serialization_roundtrip_witness :
    goodChecklist exChecklist ∧
    Checklist.from_dict "NOW" exChecklist.to_dict = exChecklist :=
  ⟨by decide, c1_serialization_roundtrip "NOW" exChecklist (by decide)⟩

/-- Counterexample to C1 as stated: a checklist whose task carries the
Python-falsy empty string in `created`, `due_date` and `reminder` does not
round-trip — `created` is replaced by a fresh timestamp and the other two
normalize to `None`, which is not structural equality. -/
theorem c1_counterexample :
    Checklist.from_dict "NOW" emptyStringChecklist.to_dict ≠ emptyStringChecklist := by
  decide

/-- C5 (amended): `Task.from_dict` yields priority `medium` when the
`priority` key is absent; when the key is present its value is passed
through verbatim, including unrecognized strings. -/
theorem c5_priority_default (now : String) (d : TaskDict) :
    (d.priority = none → (Task.from_dict now d).priority = "medium") ∧
    (∀ p, d.priority = some p → (Task.from_dict now d).priority = p) := by
  constructor
  · intro h
    simp [Task.from_dict, Task.init, h]
  · intro p h
    simp [Task.from_dict, Task.init, h]

/-- Witness for C5: the empty dictionary gets priority `medium`; a stored
`urgent` is kept verbatim. -/
theorem c5_priority_default_witness :
    (Task.from_dict "NOW" TaskDict.empty).priority = "medium" ∧
    (Task.from_dict "NOW" urgentDict).priority = "urgent" :=
  ⟨(c5_priority_default "NOW" TaskDict.empty).1 rfl,
   (c5_priority_default "NOW" urgentDict).2 "urgent" rfl⟩

/-- Counterexample to C5 as stated: the dictionary
`{'priority': 'urgent'}` holds a value outside low/medium/high, yet
`from_dict` keeps `urgent` instead of replacing it with `medium`. -/
theorem c5_counterexample :
    (Task.from_dict "NOW" urgentDict).priority = "urgent" ∧
    (Task.from_dict "NOW" urgentDict).priority ≠ "medium" := by
  decide

/-- C10: `Task.from_dict` is total on dictionaries with absent optional
keys: a missing `text` becomes the empty string, and the all-absent
dictionary yields the task with every field defaulted (`created`
becoming the fresh `now` timestamp). -/
theorem c10_from_dict_total (now : String) :
    (∀ d : TaskDict, d.text = none → (Task.from_dict now d).text = "") ∧
    Task.from_dict now TaskDict.empty =
      { text := ""
        completed := false
        notes := []
        subtasks := []
        created := now
        priority := "medium"
        due_date := none
        reminder := none } := by
  constructor
  · intro d h
    simp [Task.from_dict, Task.init, h]
  · rfl

/-- Witness for C10 at the all-absent dictionary. -/
theorem c10_from_dict_total_witness :
    (Task.from_dict "NOW" TaskDict.empty).text = "" :=
  (c10_from_dict_total "NOW").1 TaskDict.empty rfl

/-- C2 (amended): from a fresh history manager, after `record_state(S1)`
and `record_state(S2)`, `undo(C)` returns `S2` — the most recently
recorded snapshot, the top of the undo stack — not `S1`; afterwards
`can_redo` holds and `redo` returns `C`, the state that was current when
`undo` ran (which is `S2` in the claim scenario, where `C = S2`); and
calling `record_state` after an undo empties the redo stack. -/
theorem c2_history_undo_redo (α : Type) (S1 S2 C R S3 : α) :
    ((((UndoManager.init α 20).record_state S1 "").record_state S2 "").undo C).1
      = some S2 ∧
    ((((UndoManager.init α 20).record_state S1 "").record_state S2 "").undo C).2.can_redo
      = true ∧
    (((((UndoManager.init α 20).record_state S1 "").record_state S2 "").undo C).2.redo R).1
      = some C ∧
    (((((UndoManager.init α 20).record_state S1 "").record_state S2 "").undo C).2.record_state S3 "").redo_stack
      = [] := by
  refine ⟨?_, ?_, ?_, ?_⟩ <;>
    simp [UndoManager.init, UndoManager.record_state, UndoManager.undo,
      UndoManager.redo, UndoManager.can_redo]

/-- Counterexample to C2 as stated: with `S1 = 1`, `S2 = 2`, the call
`undo(S2)` after `record_state(S1)`, `record_state(S2)` returns `S2 = 2`
(the top of the undo stack), not `S1 = 1`. -/
theorem c2_counterexample :
    ((((UndoManager.init Nat 20).record_state 1 "").record_state 2 "").undo 2).1
      = some 2 ∧
    ((((UndoManager.init Nat 20).record_state 1 "").record_state 2 "").undo 2).1
      ≠ some 1 := by
  refine ⟨?_, ?_⟩ <;>
    simp [UndoManager.init, UndoManager.record_state, UndoManager.undo]

/-- C3: loading a file whose JSON root is a list fails with the validation
error naming "root must be an object", and the in-memory state (data and
current file path) is exactly what it was before the attempt. -/
theorem c3_load_list_root (st : AppState) (filename : String) (elems : List Json) :
    load_checklist_file st filename (.ok (.arr elems)) =
      (st, some "Failed to load checklist:\nInvalid checklist format: root must be an object\n\nPrevious checklist has been restored.") :=
  rfl

/-- C4: in one scan step, a task whose reminder parses to a timestamp at
or before `now` gets exactly one notification call and ends with its
reminder cleared; a task whose reminder does not parse ends cleared with
zero calls; and the result never depends on whether the notification
capability succeeds or raises. -/
theorem c4_reminder_scan (parseTs : String → Option Int) (now : Int)
    (catName : String) (t : Task) :
    (∀ r ts, t.reminder = some r → parseTs r = some ts → ts ≤ now →
      ∀ b, scan_task parseTs now b catName t =
        ({ t with reminder := none }, [(reminderTitle catName, t.text.take 100)])) ∧
    (∀ r, t.reminder = some r → parseTs r = none →
      ∀ b, scan_task parseTs now b catName t = ({ t with reminder := none }, [])) ∧
    (∀ b1 b2, scan_task parseTs now b1 catName t = scan_task parseTs now b2 catName t) := by
  refine ⟨?_, ?_, ?_⟩
  · intro r ts hr hp hle b
    simp [scan_task, hr, hp, hle]
  · intro r hr hp b
    simp [scan_task, hr, hp]
  · intro b1 b2
    rfl

/-- Witness for C4: with a concrete parser and time, a due reminder fires
one notification and is cleared; an unparsable one is cleared silently. -/
theorem c4_reminder_scan_witness :
    scan_task exParse 100 true "Work" exRemTask =
      ({ exRemTask with reminder := none },
       [(reminderTitle "Work", exRemTask.text.take 100)]) ∧
    scan_task exParse 100 true "Work" exBadRemTask =
      ({ exBadRemTask with reminder := none }, []) :=
  ⟨(c4_reminder_scan exParse 100 "Work" exRemTask).1 "T100" 100 rfl (by decide) (by decide) true,
   (c4_reminder_scan exParse 100 "Work" exBadRemTask).2.1 "garbage" rfl (by decide) true⟩

/-- The seed of a left fold with `max` bounds the fold from below. -/
theorem foldl_max_seed_le (xs : List Int) (x : Int) : x ≤ xs.foldl max x := by
  induction xs generalizing x with
  | nil => exact le_refl x
  | cons a as ih => exact le_trans (le_max_left x a) (ih (max x a))

/-- Every member of the list bounds a left `max` fold from below. -/
theorem foldl_max_mem_le (xs : List Int) (x y : Int) (h : y ∈ xs) :
    y ≤ xs.foldl max x := by
  induction xs generalizing x with
  | nil => cases h
  | cons a as ih =>
    rcases List.mem_cons.mp h with h1 | h2
    · subst h1
      exact le_trans (le_max_right x y) (foldl_max_seed_le as (max x y))
    · exact ih (max x a) h2

/-- C6 (amended): the next category id is 1 for an empty list and
otherwise `max(existing ids) + 1`, strictly above every id currently
present, so a freshly added category never collides with an existing one;
an `add` appends the category with exactly that id. After a deletion of
the maximal id, however, the id is reused (see the counterexample). -/
theorem c6_category_id_fresh (c : Checklist) :
    (c.categories = [] → c.get_next_category_id = 1) ∧
    (∀ cat ∈ c.categories, cat.id < c.get_next_category_id) ∧
    (∀ name, (runOp c (.add name)).1.categories
      = c.categories ++ [⟨c.get_next_category_id, name, []⟩]) := by
  refine ⟨?_, ?_, ?_⟩
  · intro h
    simp [Checklist.get_next_category_id, h]
  · intro cat hmem
    cases hc : c.categories.map Category.id with
    | nil =>
      rw [List.map_eq_nil_iff] at hc
      rw [hc] at hmem
      cases hmem
    | cons x xs =>
      have hval : c.get_next_category_id = xs.foldl max x + 1 := by
        unfold Checklist.get_next_category_id
        rw [hc]
      rw [hval]
      have hin : cat.id ∈ c.categories.map Category.id :=
        List.mem_map_of_mem Category.id hmem
      rw [hc] at hin
      rcases List.mem_cons.mp hin with h1 | h2
      · have := foldl_max_seed_le xs x
        omega
      · have := foldl_max_mem_le xs x cat.id h2
        omega
  · intro name
    rfl

/-- Witness for C6: with categories of ids 1 and 5 the next id is 6,
above the present id 5; an empty checklist starts at 1. -/
theorem c6_category_id_fresh_witness :
    (5 : Int) < (Checklist.mk [⟨1, "A", []⟩, ⟨5, "B", []⟩] none).get_next_category_id ∧
    (Checklist.mk [] none).get_next_category_id = 1 :=
  ⟨(c6_category_id_fresh (Checklist.mk [⟨1, "A", []⟩, ⟨5, "B", []⟩] none)).2.1
      ⟨5, "B", []⟩ (by decide),
   (c6_category_id_fresh (Checklist.mk [] none)).1 rfl⟩

/-- Counterexample to C6 as stated: in the session add "A" (id 1),
add "B" (id 2), remove id 2, add "C", the last add is assigned id 2
again — equal to the id of a category previously created and deleted in
the same session, so ids are reused after deletion. -/
theorem c6_counterexample :
    (runSession ⟨[], none⟩ [.add "A", .add "B", .remove 2, .add "C"]).2 = [1, 2, 2] ∧
    ¬ (runSession ⟨[], none⟩ [.add "A", .add "B", .remove 2, .add "C"]).2.Nodup := by
  refine ⟨?_, ?_⟩ <;> decide

/-- C7: `sort_smart` returns a permutation of its input sorted ascending
by the composite key (completion, priority rank, due date with missing
last); on the three scenario tasks the order is incomplete-high-with-due,
incomplete-low-without-due, completed. -/
theorem c7_sort_smart (tasks : List TaskDict) :
    List.Sorted smartR (TaskSorter.sort_smart tasks) ∧
    List.Perm (TaskSorter.sort_smart tasks) tasks ∧
    TaskSorter.sort_smart [exCompletedHigh, exLowNoDue, exHighDue] =
      [exHighDue, exLowNoDue, exCompletedHigh] := by
  refine ⟨List.sorted_insertionSort smartR tasks,
    List.perm_insertionSort smartR tasks, ?_⟩
  decide

/-- C8: `reorder_categories` is a no-op returning false when the indices
are equal or out of range; otherwise it returns true, the moved category
is found at the destination index, and the categories are a permutation
of the originals (in particular the count is unchanged). -/
theorem c8_reorder_categories (c : Checklist) (i j : Int) :
    ((i = j ∨ i < 0 ∨ (c.categories.length : Int) ≤ i ∨ j < 0 ∨
        (c.categories.length : Int) ≤ j) →
      c.reorder_categories i j = (false, c)) ∧
    (0 ≤ i → i < (c.categories.length : Int) → 0 ≤ j →
        j < (c.categories.length : Int) → i ≠ j →
      (c.reorder_categories i j).1 = true ∧
      ((c.reorder_categories i j).2.categories)[j.toNat]? = c.categories[i.toNat]? ∧
      List.Perm (c.reorder_categories i j).2.categories c.categories ∧
      (c.reorder_categories i j).2.categories.length = c.categories.length) := by
  constructor
  · intro h
    have hneg : ¬(0 ≤ i ∧ i < (c.categories.length : Int) ∧ 0 ≤ j ∧
        j < (c.categories.length : Int) ∧ i ≠ j) := by omega
    simp only [Checklist.reorder_categories]
    rw [if_neg hneg]
  · intro h0 h1 h2 h3 h4
    have hyp : 0 ≤ i ∧ i < (c.categories.length : Int) ∧ 0 ≤ j ∧
        j < (c.categories.length : Int) ∧ i ≠ j := ⟨h0, h1, h2, h3, h4⟩
    have hi : i.toNat < c.categories.length := by omega
    have hj : j.toNat < c.categories.length := by omega
    have hj2 : j.toNat ≤ (c.categories.eraseIdx i.toNat).length := by
      rw [List.length_eraseIdx_of_lt hi]
      omega
    simp only [Checklist.reorder_categories]
    rw [if_pos hyp]
    have hgetd : c.categories.getD i.toNat default = c.categories[i.toNat] :=
      List.getD_eq_getElem c.categories default hi
    have hperm : List.Perm
        (listInsertAt j.toNat (c.categories.getD i.toNat default)
          (c.categories.eraseIdx i.toNat)) c.categories := by
      rw [hgetd]
      unfold listInsertAt
      refine (List.perm_middle).trans ?_
      rw [List.take_append_drop]
      rw [List.eraseIdx_eq_take_drop_succ]
      refine (List.perm_middle.symm).trans ?_
      rw [List.getElem_cons_drop c.categories i.toNat hi, List.take_append_drop]
    refine ⟨rfl, ?_, hperm, hperm.length_eq⟩
    unfold listInsertAt
    have hlen : ((c.categories.eraseIdx i.toNat).take j.toNat).length = j.toNat := by
      rw [List.length_take]
      omega
    rw [List.getElem?_append_right (le_of_eq hlen), hlen, Nat.sub_self, hgetd]
    simp [List.getElem?_eq_getElem hi]

/-- Witness for C8: moving index 0 to index 2 in a three-category list
succeeds with the moved category observed at index 2 and the count
unchanged; equal indices are refused. -/
theorem c8_reorder_categories_witness :
    (((Checklist.mk [⟨1, "A", []⟩, ⟨2, "B", []⟩, ⟨3, "C", []⟩] none).reorder_categories 0 2).1 = true ∧
     ((Checklist.mk [⟨1, "A", []⟩, ⟨2, "B", []⟩, ⟨3, "C", []⟩] none).reorder_categories 0 2).2.categories[(2 : Int).toNat]?
       = (Checklist.mk [⟨1, "A", []⟩, ⟨2, "B", []⟩, ⟨3, "C", []⟩] none).categories[(0 : Int).toNat]? ∧
     List.Perm ((Checklist.mk [⟨1, "A", []⟩, ⟨2, "B", []⟩, ⟨3, "C", []⟩] none).reorder_categories 0 2).2.categories
       (Checklist.mk [⟨1, "A", []⟩, ⟨2, "B", []⟩, ⟨3, "C", []⟩] none).categories ∧
     ((Checklist.mk [⟨1, "A", []⟩, ⟨2, "B", []⟩, ⟨3, "C", []⟩] none).reorder_categories 0 2).2.categories.length
       = (Checklist.mk [⟨1, "A", []⟩, ⟨2, "B", []⟩, ⟨3, "C", []⟩] none).categories.length) ∧
    (Checklist.mk [⟨1, "A", []⟩, ⟨2, "B", []⟩, ⟨3, "C", []⟩] none).reorder_categories 1 1
      = (false, Checklist.mk [⟨1, "A", []⟩, ⟨2, "B", []⟩, ⟨3, "C", []⟩] none) :=
  ⟨(c8_reorder_categories (Checklist.mk [⟨1, "A", []⟩, ⟨2, "B", []⟩, ⟨3, "C", []⟩] none) 0 2).2
      (by decide) (by decide) (by decide) (by decide) (by decide),
   (c8_reorder_categories (Checklist.mk [⟨1, "A", []⟩, ⟨2, "B", []⟩, ⟨3, "C", []⟩] none) 1 1).1
      (Or.inl rfl)⟩

/-- C9: adding a path puts it first, keeps at most 10 entries, preserves
freedom from duplicates, keeps the other retained entries in their
relative order (the tail is a sublist of the previous list), and seeding
an empty list with 12 distinct paths retains exactly the 10
most-recently-added, most recent first. -/
theorem c9_add_recent_file (recent_files : List String) (p : String)
    (h : recent_files.Nodup) :
    (add_recent_file recent_files p).head? = some p ∧
    (add_recent_file recent_files p).length ≤ 10 ∧
    (add_recent_file recent_files p).Nodup ∧
    (add_recent_file recent_files p).tail.Sublist recent_files ∧
    List.foldl add_recent_file [] twelvePaths =
      ["f12", "f11", "f10", "f09", "f08", "f07", "f06", "f05", "f04", "f03"] := by
  have hcons : (p :: recent_files.erase p).Nodup := by
    rw [List.nodup_cons]
    refine ⟨fun hc => ?_, h.erase p⟩
    exact ((List.Nodup.mem_erase_iff h).mp hc).1 rfl
  refine ⟨rfl, ?_, ?_, ?_, ?_⟩
  · exact List.length_take_le 10 _
  · exact (List.take_sublist 10 _).nodup hcons
  · show ((recent_files.erase p).take 9).Sublist recent_files
    exact (List.take_sublist 9 _).trans (List.erase_sublist p recent_files)
  · decide

/-- Witness for C9 on a one-element list. -/
theorem c9_add_recent_file_witness :
    (add_recent_file ["a"] "b").head? = some "b" ∧
    (add_recent_file ["a"] "b").length ≤ 10 ∧
    (add_recent_file ["a"] "b").Nodup ∧
    (add_recent_file ["a"] "b").tail.Sublist ["a"] ∧
    List.foldl add_recent_file [] twelvePaths =
      ["f12", "f11", "f10", "f09", "f08", "f07", "f06", "f05", "f04", "f03"] :=
  c9_add_recent_file ["a"] "b" (by decide)

end SC
